import Mathlib

/-!
Verification of the learning-games core (GameEngine, VocabularyService,
StatisticsService, PlayerService) against its specification.

The JavaScript source is shallowly embedded: each class becomes a Lean
structure, each method a pure function on that structure.  Randomness
(`Math.random`) is modelled by an oracle `r : Nat → Nat` giving, for each
loop index `i`, the value `Math.floor(Math.random() * (i + 1))`; a valid
oracle satisfies `r i ≤ i`.  Asynchronous I/O outcomes (Firebase reads,
HTTP fetches, `prompt`) are supplied as explicit parameters; a thrown /
rejected outcome is an `Except.error`, so the embedded functions being
total in `Except`-free result types captures that the source swallows
those errors rather than propagating them.
-/

namespace Learning

/-- A vocabulary item.  English items carry an `english` field, Hebrew
spelling items a `word` field; `id` stands in for JavaScript reference
identity (two distinct objects get distinct `id`s). -/
structure Item where
  id : Nat
  english : Option String := none
  word : Option String := none
  hebrew : Option String := none
  deriving DecidableEq, Repr

/-- JavaScript truthiness of a nullable string: `null` and `""` are falsy. -/
def strTruthy : Option String → Bool
  | some s => s ≠ ""
  | none => false

/-- `GameEngine.isSameItem`: compare `english` fields when both are truthy,
else `word` fields when both are truthy, else reference equality. -/
def isSameItem (a b : Item) : Bool :=
  if strTruthy a.english && strTruthy b.english then a.english == b.english
  else if strTruthy a.word && strTruthy b.word then a.word == b.word
  else a == b

/-- One iteration body of `shuffleArray`: the destructuring swap
`[A[i], A[j]] = [A[j], A[i]]`.  Out-of-range indices never occur in the
source loop; the match keeps the function total. -/
def swapList (l : List α) (i j : Nat) : List α :=
  match l[i]?, l[j]? with
  | some a, some b => (l.set i b).set j a
  | _, _ => l

/-- The `for (let i = n-1; i > 0; i--)` loop of `shuffleArray`, with the
current loop index as the recursion argument: at index `i+1` swap
positions `i+1` and `r (i+1)`, then continue with `i`; stop at `i = 0`. -/
def shuffleLoop (r : Nat → Nat) : List α → Nat → List α
  | l, 0 => l
  | l, i + 1 => shuffleLoop r (swapList l (i + 1) (r (i + 1))) i

/-- `GameEngine.shuffleArray`: copy the array, then run the Fisher–Yates
loop from index `length − 1` down to `1`. -/
def shuffleArray (r : Nat → Nat) (l : List α) : List α :=
  shuffleLoop r l (l.length - 1)

/-- The engine-state fields of `GameEngine` (UI bindings, `gameId`,
`currentLesson` and the callback map are UI glue and omitted). -/
structure GameEngine where
  vocabulary : List Item
  items : List Item
  currentIndex : Nat
  correctCount : Nat
  wrongCount : Nat
  skippedCount : Nat
  wrongItems : List Item
  isRetryMode : Bool
  hasAnswered : Bool
  deriving DecidableEq, Repr

/-- The engine state the constructor produces for a given vocabulary
(the source assigns `this.vocabulary` in `loadVocabulary`). -/
def mkEngine (vocab : List Item) : GameEngine :=
  { vocabulary := vocab, items := [], currentIndex := 0, correctCount := 0,
    wrongCount := 0, skippedCount := 0, wrongItems := [], isRetryMode := false,
    hasAnswered := false }

/-- `GameEngine.displayCurrentItem`: past the end it calls `showFinalScreen`
(statistics + callbacks only, no engine-field change); otherwise it clears
the per-item `hasAnswered` guard and fires the display callback. -/
def displayCurrentItem (e : GameEngine) : GameEngine :=
  if e.currentIndex ≥ e.items.length then e
  else { e with hasAnswered := false }

/-- `GameEngine.startGame`: shuffle a copy of the vocabulary into `items`,
reset the cursor and the guard, start a statistics session (modelled
separately), then display item 0. -/
def startGame (r : Nat → Nat) (e : GameEngine) : GameEngine :=
  displayCurrentItem
    { e with items := shuffleArray r e.vocabulary, currentIndex := 0,
             hasAnswered := false }

/-- `GameEngine.nextItem`: advance the cursor and re-display. -/
def nextItem (e : GameEngine) : GameEngine :=
  displayCurrentItem { e with currentIndex := e.currentIndex + 1 }

/-- The wrong/skipped branches push the current item onto `wrongItems`
unless an `isSameItem`-equal entry is already there.  (In every claimed
scenario the cursor is in range, so the `none` branch is unreachable.) -/
def addWrongItem (e : GameEngine) : GameEngine :=
  match e.items[e.currentIndex]? with
  | none => e
  | some item =>
    if e.wrongItems.any (fun w => isSameItem w item) then e
    else { e with wrongItems := e.wrongItems ++ [item] }

/-- `GameEngine.recordCorrect`: no-op returning `false` if already
answered; otherwise set the guard, bump `correctCount`, return `true`. -/
def recordCorrect (e : GameEngine) : Bool × GameEngine :=
  if e.hasAnswered then (false, e)
  else (true, { e with hasAnswered := true, correctCount := e.correctCount + 1 })

/-- `GameEngine.recordWrong`: guard, bump `wrongCount`, add the current
item to the retry set. -/
def recordWrong (e : GameEngine) : Bool × GameEngine :=
  if e.hasAnswered then (false, e)
  else (true, addWrongItem { e with hasAnswered := true, wrongCount := e.wrongCount + 1 })

/-- `GameEngine.recordSkipped`: guard, bump `skippedCount`, add the current
item to the retry set. -/
def recordSkipped (e : GameEngine) : Bool × GameEngine :=
  if e.hasAnswered then (false, e)
  else (true, addWrongItem { e with hasAnswered := true, skippedCount := e.skippedCount + 1 })

/-- `GameEngine.resetScores`. -/
def resetScores (e : GameEngine) : GameEngine :=
  { e with correctCount := 0, wrongCount := 0, skippedCount := 0 }

/-- `GameEngine.restartGame`. -/
def restartGame (r : Nat → Nat) (e : GameEngine) : GameEngine :=
  startGame r { resetScores e with wrongItems := [], isRetryMode := false }

/-- `GameEngine.retryWrongItems`: no-op on an empty retry set; otherwise
shuffle the retry set into `items`, clear it, reset the counters, enter
retry mode, reset the cursor, and display item 0. -/
def retryWrongItems (r : Nat → Nat) (e : GameEngine) : GameEngine :=
  if e.wrongItems.length = 0 then e
  else
    displayCurrentItem
      { e with items := shuffleArray r e.wrongItems, wrongItems := [],
               correctCount := 0, wrongCount := 0, skippedCount := 0,
               isRetryMode := true, currentIndex := 0 }

/-- `GameEngine.shuffleCurrentItems`: re-shuffle `items` in place, reset
the cursor, re-display. -/
def shuffleCurrentItems (r : Nat → Nat) (e : GameEngine) : GameEngine :=
  displayCurrentItem
    { e with items := shuffleArray r e.items, currentIndex := 0 }

/-- The end-of-game percentage in `GameEngine.showFinalScreen`:
`total > 0 ? Math.round((correctCount / total) * 100) : 0`, with the exact
rational value in place of the double and `Math.round x = ⌊x + 1/2⌋`,
which is Mathlib's `round`. -/
def enginePercentage (correct total : Nat) : Nat :=
  if total > 0 then (round ((correct : ℚ) / total * 100)).toNat else 0

/-- `StatisticsService._calculateScore`:
`if (!total || total === 0) return 0; return Math.round((correct / total) * 100)`. -/
def calculateScore (correct total : Nat) : Nat :=
  if total = 0 then 0 else (round ((correct : ℚ) / total * 100)).toNat

/-- A Firebase read result at a vocabulary path: an object keyed by child
id (possibly empty, which JavaScript treats as truthy), or `none` for a
null snapshot value. -/
abbrev FbData := List (String × Item)

/-- The data source reported through `_notifyStatus`. -/
inductive Source
  | firebase
  | json
  | embedded
  deriving DecidableEq, Repr

/-- A parsed JSON value as the service sees it: JSON `null` (falsy), or a
document carrying a `vocabulary` array (truthy, even when the array is
empty). -/
inductive JsonVal
  | nullJ
  | doc (vocabulary : List Item)
  deriving DecidableEq, Repr

/-- JavaScript truthiness of a `JsonVal`. -/
def jsonTruthy : JsonVal → Bool
  | .nullJ => false
  | .doc _ => true

/-- `VocabularyService._tryFirebase`.  `initOk` is the outcome of
`init()`, `cached` the cache entry for the path, `race` the settlement of
`Promise.race([fetchPromise, timeoutPromise])`: `.error` for a timeout or
rejected fetch, `.ok v` for a snapshot whose `val()` is `v`.  The
`try`/`catch` swallows the error branch, so the result is a plain
`Option`, never an exception. -/
def tryFirebase (initOk : Bool) (cached : Option FbData)
    (race : Except Unit (Option FbData)) : Option FbData :=
  if !initOk then none
  else
    match cached with
    | some d => some d
    | none =>
      match race with
      | .error _ => none
      | .ok data =>
        match data with
        | some d => some d
        | none => none

/-- `VocabularyService._tryJsonFallback`.  `resp` is `.error` when the
fetch throws or `response.ok` is false, `.ok d` for a parsed body `d`
(returned as-is, with no truthiness check). -/
def tryJsonFallback (resp : Except Unit JsonVal) : Option JsonVal :=
  match resp with
  | .error _ => none
  | .ok d => some d

/-- The observable outcome of one `getEnglishVocabulary` call: the
returned value, the source passed to `_notifyStatus` (which also becomes
`lastSource`), the `isOnline` flag of that notification, and whether the
JSON-fallback fetch was attempted at all. -/
structure FetchResult where
  result : Option JsonVal
  source : Source
  isOnline : Bool
  localAttempted : Bool
  deriving DecidableEq, Repr

/-- `VocabularyService.getEnglishVocabulary`: try Firebase; on a truthy
result wrap `Object.values(firebaseData)` as `{vocabulary: words}` and
report `'firebase'` without touching the JSON tier; otherwise try the
JSON fallback and return its document when truthy (`'json'`); otherwise
return `null` (`'embedded'`). -/
def getEnglishVocabulary (initOk : Bool) (cached : Option FbData)
    (race : Except Unit (Option FbData)) (resp : Except Unit JsonVal) :
    FetchResult :=
  match tryFirebase initOk cached race with
  | some fbData =>
    { result := some (.doc (fbData.map Prod.snd)), source := .firebase,
      isOnline := true, localAttempted := false }
  | none =>
    match tryJsonFallback resp with
    | some d =>
      if jsonTruthy d then
        { result := some d, source := .json, isOnline := false,
          localAttempted := true }
      else
        { result := none, source := .embedded, isOnline := false,
          localAttempted := true }
    | none =>
      { result := none, source := .embedded, isOnline := false,
        localAttempted := true }

/-- `PlayerService` state: the in-process cache `this.playerId` and the
`localStorage` entry under `'player_name'` (`none` models JavaScript
`null`). -/
structure PlayerState where
  playerId : Option String
  stored : Option String
  deriving DecidableEq, Repr

/-- Strip leading and trailing whitespace from a character list — the
behaviour of JavaScript `String.prototype.trim`. -/
def trimChars (cs : List Char) : List Char :=
  ((cs.dropWhile Char.isWhitespace).reverse.dropWhile Char.isWhitespace).reverse

/-- The normalization applied to prompted input: `toLowerCase().trim()`,
implemented on the character list. -/
def normalizeName (s : String) : String :=
  ⟨trimChars (s.data.map Char.toLower)⟩

/-- `PlayerService.getPlayerId`.  `promptResult` is what `prompt(...)`
returns: `none` for cancel, `some input` otherwise.  Returns the value
the method returns together with the updated state. -/
def getPlayerId (promptResult : Option String) (st : PlayerState) :
    Option String × PlayerState :=
  if strTruthy st.playerId then (st.playerId, st)
  else if strTruthy st.stored then
    (st.stored, { st with playerId := st.stored })
  else
    match promptResult with
    | none => (none, { st with playerId := none })
    | some input =>
      if input = "" then (some "", { st with playerId := some "" })
      else
        let n := normalizeName input
        if n.length > 0 then (some n, { playerId := some n, stored := some n })
        else (none, { st with playerId := none })

/-- An answer kind passed to `StatisticsService.recordAnswer`. -/
inductive AnswerKind
  | correct
  | wrong
  | skipped
  deriving DecidableEq, Repr

/-- The in-memory `this.currentSession` object (timestamps and the
lesson/difficulty/source tags are carried along unchanged and omitted). -/
structure StatsSession where
  playerId : String
  gameId : String
  totalWords : Nat
  correctCount : Nat
  wrongCount : Nat
  skippedCount : Nat
  deriving DecidableEq, Repr

/-- The `StatisticsService` fields the session-tracking claims touch. -/
structure StatsState where
  currentSession : Option StatsSession
  sessionId : Option String
  saveFrequency : Nat
  answersSinceLastSave : Nat
  deriving DecidableEq, Repr

/-- The constructor state of `StatisticsService`. -/
def initialStatsState : StatsState :=
  { currentSession := none, sessionId := none, saveFrequency := 5,
    answersSinceLastSave := 0 }

/-- `StatisticsService._createLiveSession`.  `pushKey` is `some k` when
`_init()` succeeded and `push` generated key `k` (assigned to
`this.sessionId` even if the subsequent `set` rejects, since the `catch`
comes after the assignment); `none` when `_init()` failed, leaving
`sessionId` untouched. -/
def createLiveSession (pushKey : Option String) (s : StatsState) : StatsState :=
  match pushKey with
  | none => s
  | some k => { s with sessionId := some k }

/-- `StatisticsService.startSession`.  `playerId` is the result of
`playerService.getPlayerId()`; a falsy id aborts tracking. -/
def startSession (playerId : Option String) (gameId : String)
    (totalWords : Nat) (pushKey : Option String) (s : StatsState) : StatsState :=
  if strTruthy playerId then
    match playerId with
    | some pid =>
      createLiveSession pushKey
        { s with
          currentSession := some
            { playerId := pid, gameId := gameId, totalWords := totalWords,
              correctCount := 0, wrongCount := 0, skippedCount := 0 },
          answersSinceLastSave := 0 }
    | none => s
  else s

/-- `StatisticsService.recordAnswer`: early return when there is no
current session or no live session id; otherwise bump the matching
counter and push to Firebase every `saveFrequency` answers.  The boolean
reports whether a persistence write was attempted on this call. -/
def recordAnswer (result : AnswerKind) (s : StatsState) : StatsState × Bool :=
  match s.currentSession, s.sessionId with
  | some sess, some _ =>
    let sess' :=
      match result with
      | .correct => { sess with correctCount := sess.correctCount + 1 }
      | .wrong => { sess with wrongCount := sess.wrongCount + 1 }
      | .skipped => { sess with skippedCount := sess.skippedCount + 1 }
    let n := s.answersSinceLastSave + 1
    if n ≥ s.saveFrequency then
      ({ s with currentSession := some sess', answersSinceLastSave := 0 }, true)
    else
      ({ s with currentSession := some sess', answersSinceLastSave := n }, false)
  | _, _ => (s, false)

/-- One of the three answer-recording operations. -/
inductive RecOp
  | correct
  | wrong
  | skipped
  deriving DecidableEq, Repr

/-- Dispatch a `RecOp` to the corresponding engine method. -/
def applyRec : RecOp → GameEngine → Bool × GameEngine
  | .correct => recordCorrect
  | .wrong => recordWrong
  | .skipped => recordSkipped

/-- A normal pass: for each listed operation, record the displayed item's
result once, then advance with `nextItem`. -/
def runPass (e : GameEngine) : List RecOp → GameEngine
  | [] => e
  | op :: rest => runPass (nextItem (applyRec op e).2) rest

/-- Every record call in the pass succeeded (returned `true`). -/
def passOk : GameEngine → List RecOp → Prop
  | _, [] => True
  | e, op :: rest => (applyRec op e).1 = true ∧ passOk (nextItem (applyRec op e).2) rest

/-- A concrete one-item session in which the player answers, shuffles
mid-game via `shuffleCurrentItems`, answers the re-displayed item again
and then advances off the end. -/
def overshootTrace : GameEngine :=
  let it : Item := { id := 1, english := some "cat", hebrew := some "dog" }
  let r : Nat → Nat := fun _ => 0
  nextItem (recordCorrect (shuffleCurrentItems r
    (recordCorrect (startGame r (mkEngine [it]))).2)).2

/-- Helper: replacing position `k` of `xs` by `x` while moving the old
element `b = xs[k]` to the front is a permutation of `x :: xs`. -/
theorem cons_set_perm (x : α) :
    ∀ (xs : List α) (k : Nat) (b : α), xs[k]? = some b →
      (b :: xs.set k x).Perm (x :: xs) := by
  intro xs
  induction xs with
  | nil => intro k b h; simp at h
  | cons y ys ih =>
    intro k b h
    cases k with
    | zero =>
      simp at h
      subst h
      simpa using List.Perm.swap x y ys
    | succ k =>
      simp at h
      have hstep := ih k b h
      have e1 : (y :: ys).set (k + 1) x = y :: ys.set k x := by simp [List.set]
      rw [e1]
      exact (List.Perm.swap y b _).trans
        ((List.Perm.cons y hstep).trans (List.Perm.swap x y ys))

/-- Swapping two positions of a list yields a permutation of it. -/
theorem swapList_perm : ∀ (l : List α) (i j : Nat), (swapList l i j).Perm l := by
  intro l
  induction l with
  | nil => intro i j; simp [swapList]
  | cons x xs ih =>
    intro i j
    cases i with
    | zero =>
      cases j with
      | zero => simp [swapList]
      | succ k =>
        cases h : xs[k]? with
        | none => simp [swapList, h]
        | some b =>
          simp only [swapList, List.getElem?_cons_zero, List.getElem?_cons_succ, h,
            List.set_cons_zero]
          have : (b :: xs).set (k + 1) x = b :: xs.set k x := by simp [List.set]
          rw [this]
          exact cons_set_perm x xs k b h
    | succ m =>
      cases j with
      | zero =>
        cases h : xs[m]? with
        | none => simp [swapList, h]
        | some a =>
          simp only [swapList, List.getElem?_cons_zero, List.getElem?_cons_succ, h]
          have : (x :: xs).set (m + 1) x = x :: xs.set m x := by simp [List.set]
          rw [this, List.set_cons_zero]
          exact cons_set_perm x xs m a h
      | succ k =>
        cases h1 : xs[m]? with
        | none => simp [swapList, h1]
        | some a =>
          cases h2 : xs[k]? with
          | none => simp [swapList, h1, h2]
          | some b =>
            simp only [swapList, List.getElem?_cons_succ, h1, h2]
            have e1 : (x :: xs).set (m + 1) b = x :: xs.set m b := by simp [List.set]
            rw [e1]
            have e2 : (x :: xs.set m b).set (k + 1) a = x :: (xs.set m b).set k a := by
              simp [List.set]
            rw [e2]
            refine List.Perm.cons x ?_
            have := ih m k
            simpa [swapList, h1, h2] using this

/-- The Fisher–Yates loop permutes its input, whatever the oracle does. -/
theorem shuffleLoop_perm (r : Nat → Nat) :
    ∀ (n : Nat) (l : List α), (shuffleLoop r l n).Perm l := by
  intro n
  induction n with
  | zero => intro l; simp [shuffleLoop]
  | succ i ih =>
    intro l
    exact (ih (swapList l (i + 1) (r (i + 1)))).trans (swapList_perm l (i + 1) (r (i + 1)))

/-- `shuffleArray` permutes its input. -/
theorem shuffleArray_perm (r : Nat → Nat) (l : List α) :
    (shuffleArray r l).Perm l :=
  shuffleLoop_perm r (l.length - 1) l

/-- `addWrongItem` only touches `wrongItems`. -/
theorem addWrongItem_frame (e : GameEngine) :
    (addWrongItem e).hasAnswered = e.hasAnswered ∧
    (addWrongItem e).currentIndex = e.currentIndex ∧
    (addWrongItem e).correctCount = e.correctCount ∧
    (addWrongItem e).wrongCount = e.wrongCount ∧
    (addWrongItem e).skippedCount = e.skippedCount ∧
    (addWrongItem e).items = e.items := by
  unfold addWrongItem
  cases h : e.items[e.currentIndex]? with
  | none => simp
  | some item =>
    by_cases hw : e.wrongItems.any (fun w => isSameItem w item) <;> simp [hw]

/-- After an already-answered item, every record operation is a no-op
returning `false`. -/
theorem applyRec_of_hasAnswered (e : GameEngine) (h : e.hasAnswered = true)
    (g : RecOp) : applyRec g e = (false, e) := by
  cases g <;> simp [applyRec, recordCorrect, recordWrong, recordSkipped, h]

/-- A successful record operation: the guard was clear, the summed
counters grow by one, the cursor and items are untouched, and the guard
is now set. -/
theorem applyRec_step (e : GameEngine) (h : e.hasAnswered = false) (op : RecOp) :
    (applyRec op e).1 = true ∧
    (applyRec op e).2.hasAnswered = true ∧
    (applyRec op e).2.currentIndex = e.currentIndex ∧
    (applyRec op e).2.items = e.items ∧
    (applyRec op e).2.correctCount + (applyRec op e).2.wrongCount +
        (applyRec op e).2.skippedCount
      = e.correctCount + e.wrongCount + e.skippedCount + 1 := by
  cases op with
  | correct => simp [applyRec, recordCorrect, h]; omega
  | wrong =>
    have hf := addWrongItem_frame
      { e with hasAnswered := true, wrongCount := e.wrongCount + 1 }
    simp [applyRec, recordWrong, h]
    refine ⟨hf.1, hf.2.1, hf.2.2.2.2.2, ?_⟩
    have h1 := hf.2.2.1
    have h2 := hf.2.2.2.1
    have h3 := hf.2.2.2.2.1
    simp at h1 h2 h3
    omega
  | skipped =>
    have hf := addWrongItem_frame
      { e with hasAnswered := true, skippedCount := e.skippedCount + 1 }
    simp [applyRec, recordSkipped, h]
    refine ⟨hf.1, hf.2.1, hf.2.2.2.2.2, ?_⟩
    have h1 := hf.2.2.1
    have h2 := hf.2.2.2.1
    have h3 := hf.2.2.2.2.1
    simp at h1 h2 h3
    omega

/-- C1: after `startGame` the active item list is a permutation of the
vocabulary (same multiset, hence same length), the cursor is reset to 0,
and the list is produced by the Fisher–Yates loop `shuffleArray` (index
`i` from `length − 1` down to `1`, swapping with `r i ∈ [0, i]`). -/
theorem startGame_shuffles_permutation (e : GameEngine) (r : Nat → Nat)
    (hr : ∀ i, r i ≤ i) :
    (startGame r e).items.Perm e.vocabulary ∧
    (startGame r e).items.length = e.vocabulary.length ∧
    (startGame r e).currentIndex = 0 ∧
    (startGame r e).items = shuffleArray r e.vocabulary := by
  have hitems : (startGame r e).items = shuffleArray r e.vocabulary := by
    unfold startGame displayCurrentItem
    split <;> simp
  have hidx : (startGame r e).currentIndex = 0 := by
    unfold startGame displayCurrentItem
    split <;> simp
  have hperm : (startGame r e).items.Perm e.vocabulary := by
    rw [hitems]; exact shuffleArray_perm r e.vocabulary
  exact ⟨hperm, hperm.length_eq, hidx, hitems⟩

/-- Witness for C1 at a concrete two-item vocabulary and the constant-0
oracle. -/
theorem startGame_shuffles_permutation_witness :
    (startGame (fun _ => 0)
        (mkEngine [{ id := 1, english := some "a" }, { id := 2, english := some "b" }])).items.Perm
      (mkEngine [{ id := 1, english := some "a" }, { id := 2, english := some "b" }]).vocabulary ∧
    (startGame (fun _ => 0)
        (mkEngine [{ id := 1, english := some "a" }, { id := 2, english := some "b" }])).items.length
      = (mkEngine [{ id := 1, english := some "a" }, { id := 2, english := some "b" }]).vocabulary.length ∧
    (startGame (fun _ => 0)
        (mkEngine [{ id := 1, english := some "a" }, { id := 2, english := some "b" }])).currentIndex = 0 ∧
    (startGame (fun _ => 0)
        (mkEngine [{ id := 1, english := some "a" }, { id := 2, english := some "b" }])).items
      = shuffleArray (fun _ => 0)
          (mkEngine [{ id := 1, english := some "a" }, { id := 2, english := some "b" }]).vocabulary :=
  startGame_shuffles_permutation
    (mkEngine [{ id := 1, english := some "a" }, { id := 2, english := some "b" }])
    (fun _ => 0) (fun i => Nat.zero_le i)

/-- C2: once one of `recordCorrect`/`recordWrong`/`recordSkipped` has
succeeded for the displayed item, any further record call before
`nextItem` returns `false` and leaves the whole engine state — in
particular `correctCount`, `wrongCount`, `skippedCount` and `wrongItems`
— unchanged. -/
theorem record_ops_exclusive_idempotent (e : GameEngine) (f g : RecOp)
    (h : (applyRec f e).1 = true) :
    (applyRec g (applyRec f e).2).1 = false ∧
    (applyRec g (applyRec f e).2).2 = (applyRec f e).2 := by
  have hA : e.hasAnswered = false := by
    by_contra hc
    have : e.hasAnswered = true := by
      cases hb : e.hasAnswered
      · exact absurd hb hc
      · rfl
    rw [applyRec_of_hasAnswered e this f] at h
    simp at h
  have h2 := (applyRec_step e hA f).2.1
  have := applyRec_of_hasAnswered (applyRec f e).2 h2 g
  rw [this]
  exact ⟨rfl, rfl⟩

/-- Witness for C2: on a fresh one-item game, `recordWrong` succeeds and
the subsequent `recordCorrect` is rejected without a state change. -/
theorem record_ops_exclusive_idempotent_witness :
    (applyRec .correct
        (applyRec .wrong (startGame (fun _ => 0) (mkEngine [{ id := 1, english := some "a" }]))).2).1
      = false ∧
    (applyRec .correct
        (applyRec .wrong (startGame (fun _ => 0) (mkEngine [{ id := 1, english := some "a" }]))).2).2
      = (applyRec .wrong (startGame (fun _ => 0) (mkEngine [{ id := 1, english := some "a" }]))).2 :=
  record_ops_exclusive_idempotent
    (startGame (fun _ => 0) (mkEngine [{ id := 1, english := some "a" }]))
    .wrong .correct (by decide)

/-- `startGame` keeps the counters, zeroes the cursor, clears the guard,
and installs an item list of the vocabulary's length. -/
theorem startGame_state (e : GameEngine) (r : Nat → Nat) :
    (startGame r e).correctCount = e.correctCount ∧
    (startGame r e).wrongCount = e.wrongCount ∧
    (startGame r e).skippedCount = e.skippedCount ∧
    (startGame r e).currentIndex = 0 ∧
    (startGame r e).hasAnswered = false ∧
    (startGame r e).items.length = e.vocabulary.length := by
  unfold startGame displayCurrentItem
  split <;> simp [(shuffleArray_perm r e.vocabulary).length_eq]

/-- `nextItem` bumps the cursor, keeps counters and items, and clears the
guard whenever the new cursor is still in range. -/
theorem nextItem_state (e : GameEngine) :
    (nextItem e).currentIndex = e.currentIndex + 1 ∧
    (nextItem e).correctCount = e.correctCount ∧
    (nextItem e).wrongCount = e.wrongCount ∧
    (nextItem e).skippedCount = e.skippedCount ∧
    (nextItem e).items = e.items ∧
    (e.currentIndex + 1 < e.items.length → (nextItem e).hasAnswered = false) := by
  unfold nextItem displayCurrentItem
  split
  · rename_i h
    simp at h ⊢
    intro hlt
    exact absurd h (by omega)
  · rename_i h
    simp

/-- Core induction for the pass invariant: from a clear guard, a balanced
counter sum, and enough items left, a pass succeeds at every record call
and keeps `correct + wrong + skipped = currentIndex`. -/
theorem runPass_inv : ∀ (ops : List RecOp) (e : GameEngine),
    e.hasAnswered = false →
    e.correctCount + e.wrongCount + e.skippedCount = e.currentIndex →
    e.currentIndex + ops.length ≤ e.items.length →
    passOk e ops ∧
    (runPass e ops).correctCount + (runPass e ops).wrongCount +
        (runPass e ops).skippedCount
      = (runPass e ops).currentIndex := by
  intro ops
  induction ops with
  | nil =>
    intro e h1 h2 h3
    exact ⟨trivial, by simpa [runPass] using h2⟩
  | cons op rest ih =>
    intro e h1 h2 h3
    obtain ⟨hsucc, hA, hidx, hitems, hsum⟩ := applyRec_step e h1 op
    obtain ⟨n1, n2, n3, n4, n5, n6⟩ := nextItem_state (applyRec op e).2
    have hidx2 : (nextItem (applyRec op e).2).currentIndex = e.currentIndex + 1 := by
      rw [n1, hidx]
    have hsum2 : (nextItem (applyRec op e).2).correctCount +
        (nextItem (applyRec op e).2).wrongCount +
        (nextItem (applyRec op e).2).skippedCount
        = e.correctCount + e.wrongCount + e.skippedCount + 1 := by
      rw [n2, n3, n4, hsum]
    have hitems2 : (nextItem (applyRec op e).2).items = e.items := by rw [n5, hitems]
    cases rest with
    | nil =>
      refine ⟨⟨hsucc, trivial⟩, ?_⟩
      show (runPass (nextItem (applyRec op e).2) []).correctCount + _ + _ = _
      simp only [runPass]
      omega
    | cons op2 rest2 =>
      have hlen : e.currentIndex + (op2 :: rest2).length.succ ≤ e.items.length := by
        simpa [Nat.succ_eq_add_one, Nat.add_comm, Nat.add_assoc] using h3
      have hlt : (applyRec op e).2.currentIndex + 1 < (applyRec op e).2.items.length := by
        rw [hidx, hitems]
        simp at hlen ⊢
        omega
      have hrec := ih (nextItem (applyRec op e).2) (n6 hlt) (by omega)
        (by rw [hidx2, hitems2]; simp at h3 ⊢; omega)
      exact ⟨⟨hsucc, hrec.1⟩, hrec.2⟩

/-- C3: in a normal pass started by `startGame` from a state with zeroed
counters (as at every `startGame` call site: the constructor,
`restartGame` and `onLessonChange` after `resetScores`), in which each
displayed item gets one record call followed by `nextItem`, every record
call succeeds and `correctCount + wrongCount + skippedCount =
currentIndex` holds afterwards; applying the theorem to each prefix of
`ops` gives the invariant at every intermediate step, including step 0. -/
theorem normal_pass_counter_invariant (e0 : GameEngine) (r : Nat → Nat)
    (ops : List RecOp)
    (hc : e0.correctCount = 0) (hw : e0.wrongCount = 0) (hs : e0.skippedCount = 0)
    (hlen : ops.length ≤ e0.vocabulary.length) :
    passOk (startGame r e0) ops ∧
    (runPass (startGame r e0) ops).correctCount +
        (runPass (startGame r e0) ops).wrongCount +
        (runPass (startGame r e0) ops).skippedCount
      = (runPass (startGame r e0) ops).currentIndex := by
  obtain ⟨g1, g2, g3, g4, g5, g6⟩ := startGame_state e0 r
  refine runPass_inv ops (startGame r e0) g5 ?_ ?_
  · rw [g1, g2, g3, g4, hc, hw, hs]
  · rw [g4, g6]
    simpa using hlen

/-- Witness for C3: a concrete two-item pass answered correct then wrong. -/
theorem normal_pass_counter_invariant_witness :
    passOk
      (startGame (fun _ => 0)
        (mkEngine [{ id := 1, english := some "a" }, { id := 2, english := some "b" }]))
      [.correct, .wrong] ∧
    (runPass
        (startGame (fun _ => 0)
          (mkEngine [{ id := 1, english := some "a" }, { id := 2, english := some "b" }]))
        [.correct, .wrong]).correctCount +
      (runPass
        (startGame (fun _ => 0)
          (mkEngine [{ id := 1, english := some "a" }, { id := 2, english := some "b" }]))
        [.correct, .wrong]).wrongCount +
      (runPass
        (startGame (fun _ => 0)
          (mkEngine [{ id := 1, english := some "a" }, { id := 2, english := some "b" }]))
        [.correct, .wrong]).skippedCount
      = (runPass
          (startGame (fun _ => 0)
            (mkEngine [{ id := 1, english := some "a" }, { id := 2, english := some "b" }]))
          [.correct, .wrong]).currentIndex :=
  normal_pass_counter_invariant
    (mkEngine [{ id := 1, english := some "a" }, { id := 2, english := some "b" }])
    (fun _ => 0) [.correct, .wrong] rfl rfl rfl (by decide)

/-- C4: on a wrong-item set of size `k > 0`, `retryWrongItems` installs a
new active list that is a permutation of that set (so exactly `k` items,
each drawn from it), zeroes the three counters, empties the wrong-item
set, sets `isRetryMode`, and resets the cursor to 0; on an empty
wrong-item set it is a complete no-op. -/
theorem retryWrongItems_spec (e : GameEngine) (r : Nat → Nat)
    (hr : ∀ i, r i ≤ i) :
    (e.wrongItems.length > 0 →
      (retryWrongItems r e).items.Perm e.wrongItems ∧
      (retryWrongItems r e).items.length = e.wrongItems.length ∧
      (∀ x ∈ (retryWrongItems r e).items, x ∈ e.wrongItems) ∧
      (retryWrongItems r e).correctCount = 0 ∧
      (retryWrongItems r e).wrongCount = 0 ∧
      (retryWrongItems r e).skippedCount = 0 ∧
      (retryWrongItems r e).wrongItems = [] ∧
      (retryWrongItems r e).isRetryMode = true ∧
      (retryWrongItems r e).currentIndex = 0) ∧
    (e.wrongItems.length = 0 → retryWrongItems r e = e) := by
  constructor
  · intro hk
    have hne : ¬ e.wrongItems.length = 0 := by omega
    have hperm : (shuffleArray r e.wrongItems).Perm e.wrongItems :=
      shuffleArray_perm r e.wrongItems
    have hlen := hperm.length_eq
    unfold retryWrongItems
    rw [if_neg hne]
    unfold displayCurrentItem
    rw [if_neg (by
      show ¬ (0 ≥ (shuffleArray r e.wrongItems).length)
      rw [hlen]
      omega)]
    exact ⟨hperm, hlen, fun x hx => hperm.mem_iff.mp hx, rfl, rfl, rfl, rfl, rfl, rfl⟩
  · intro h0
    unfold retryWrongItems
    rw [if_pos h0]

/-- Witness for C4: a state holding items 1 and 3 in its wrong-item set. -/
theorem retryWrongItems_spec_witness :
    ({ vocabulary := [{ id := 1, english := some "one" }, { id := 2, english := some "two" },
          { id := 3, english := some "three" }],
       items := [{ id := 1, english := some "one" }, { id := 2, english := some "two" },
          { id := 3, english := some "three" }],
       currentIndex := 3, correctCount := 1, wrongCount := 2, skippedCount := 0,
       wrongItems := [{ id := 1, english := some "one" }, { id := 3, english := some "three" }],
       isRetryMode := false, hasAnswered := true : GameEngine}.wrongItems.length > 0) ∧
    ((retryWrongItems (fun _ => 0)
        { vocabulary := [{ id := 1, english := some "one" }, { id := 2, english := some "two" },
            { id := 3, english := some "three" }],
          items := [{ id := 1, english := some "one" }, { id := 2, english := some "two" },
            { id := 3, english := some "three" }],
          currentIndex := 3, correctCount := 1, wrongCount := 2, skippedCount := 0,
          wrongItems := [{ id := 1, english := some "one" }, { id := 3, english := some "three" }],
          isRetryMode := false, hasAnswered := true }).items.Perm
        [{ id := 1, english := some "one" }, { id := 3, english := some "three" }] ∧
      (retryWrongItems (fun _ => 0)
        { vocabulary := [{ id := 1, english := some "one" }, { id := 2, english := some "two" },
            { id := 3, english := some "three" }],
          items := [{ id := 1, english := some "one" }, { id := 2, english := some "two" },
            { id := 3, english := some "three" }],
          currentIndex := 3, correctCount := 1, wrongCount := 2, skippedCount := 0,
          wrongItems := [{ id := 1, english := some "one" }, { id := 3, english := some "three" }],
          isRetryMode := false, hasAnswered := true }).items.length = 2 ∧
      (retryWrongItems (fun _ => 0)
        { vocabulary := [{ id := 1, english := some "one" }, { id := 2, english := some "two" },
            { id := 3, english := some "three" }],
          items := [{ id := 1, english := some "one" }, { id := 2, english := some "two" },
            { id := 3, english := some "three" }],
          currentIndex := 3, correctCount := 1, wrongCount := 2, skippedCount := 0,
          wrongItems := [{ id := 1, english := some "one" }, { id := 3, english := some "three" }],
          isRetryMode := false, hasAnswered := true }).wrongItems = [] ∧
      (retryWrongItems (fun _ => 0)
        { vocabulary := [{ id := 1, english := some "one" }, { id := 2, english := some "two" },
            { id := 3, english := some "three" }],
          items := [{ id := 1, english := some "one" }, { id := 2, english := some "two" },
            { id := 3, english := some "three" }],
          currentIndex := 3, correctCount := 1, wrongCount := 2, skippedCount := 0,
          wrongItems := [{ id := 1, english := some "one" }, { id := 3, english := some "three" }],
          isRetryMode := false, hasAnswered := true }).isRetryMode = true) := by
  constructor
  · decide
  · have h := (retryWrongItems_spec
      { vocabulary := [{ id := 1, english := some "one" }, { id := 2, english := some "two" },
          { id := 3, english := some "three" }],
        items := [{ id := 1, english := some "one" }, { id := 2, english := some "two" },
          { id := 3, english := some "three" }],
        currentIndex := 3, correctCount := 1, wrongCount := 2, skippedCount := 0,
        wrongItems := [{ id := 1, english := some "one" }, { id := 3, english := some "three" }],
        isRetryMode := false, hasAnswered := true }
      (fun _ => 0) (fun i => Nat.zero_le i)).1 (by decide)
    exact ⟨h.1, h.2.1, h.2.2.2.2.2.2.1, h.2.2.2.2.2.2.2.1⟩

/-- C9: `shuffleCurrentItems` permutes the active items and resets the
cursor to 0 while leaving `correctCount`, `wrongCount`, `skippedCount`,
`wrongItems` and `isRetryMode` unchanged; consequently (last conjunct,
the concrete `overshootTrace`: answer, shuffle mid-game, answer the
re-displayed item, advance) a re-walked pass can end with
`correctCount + wrongCount + skippedCount` greater than the item count. -/
theorem shuffleCurrentItems_frame (e : GameEngine) (r : Nat → Nat)
    (hr : ∀ i, r i ≤ i) :
    (shuffleCurrentItems r e).items.Perm e.items ∧
    (shuffleCurrentItems r e).currentIndex = 0 ∧
    (shuffleCurrentItems r e).correctCount = e.correctCount ∧
    (shuffleCurrentItems r e).wrongCount = e.wrongCount ∧
    (shuffleCurrentItems r e).skippedCount = e.skippedCount ∧
    (shuffleCurrentItems r e).wrongItems = e.wrongItems ∧
    (shuffleCurrentItems r e).isRetryMode = e.isRetryMode ∧
    (overshootTrace.correctCount + overshootTrace.wrongCount +
        overshootTrace.skippedCount = 2 ∧
      overshootTrace.items.length = 1) := by
  have hperm : (shuffleArray r e.items).Perm e.items := shuffleArray_perm r e.items
  unfold shuffleCurrentItems displayCurrentItem
  split <;> exact ⟨hperm, rfl, rfl, rfl, rfl, rfl, rfl, by decide⟩

/-- Witness for C9 at a concrete mid-game state. -/
theorem shuffleCurrentItems_frame_witness :
    (shuffleCurrentItems (fun _ => 0)
        { vocabulary := [{ id := 1, english := some "a" }, { id := 2, english := some "b" }],
          items := [{ id := 1, english := some "a" }, { id := 2, english := some "b" }],
          currentIndex := 1, correctCount := 1, wrongCount := 0, skippedCount := 0,
          wrongItems := [], isRetryMode := false, hasAnswered := true }).items.Perm
      [{ id := 1, english := some "a" }, { id := 2, english := some "b" }] ∧
    (shuffleCurrentItems (fun _ => 0)
        { vocabulary := [{ id := 1, english := some "a" }, { id := 2, english := some "b" }],
          items := [{ id := 1, english := some "a" }, { id := 2, english := some "b" }],
          currentIndex := 1, correctCount := 1, wrongCount := 0, skippedCount := 0,
          wrongItems := [], isRetryMode := false, hasAnswered := true }).currentIndex = 0 ∧
    (shuffleCurrentItems (fun _ => 0)
        { vocabulary := [{ id := 1, english := some "a" }, { id := 2, english := some "b" }],
          items := [{ id := 1, english := some "a" }, { id := 2, english := some "b" }],
          currentIndex := 1, correctCount := 1, wrongCount := 0, skippedCount := 0,
          wrongItems := [], isRetryMode := false, hasAnswered := true }).correctCount = 1 ∧
    (shuffleCurrentItems (fun _ => 0)
        { vocabulary := [{ id := 1, english := some "a" }, { id := 2, english := some "b" }],
          items := [{ id := 1, english := some "a" }, { id := 2, english := some "b" }],
          currentIndex := 1, correctCount := 1, wrongCount := 0, skippedCount := 0,
          wrongItems := [], isRetryMode := false, hasAnswered := true }).wrongCount = 0 ∧
    (shuffleCurrentItems (fun _ => 0)
        { vocabulary := [{ id := 1, english := some "a" }, { id := 2, english := some "b" }],
          items := [{ id := 1, english := some "a" }, { id := 2, english := some "b" }],
          currentIndex := 1, correctCount := 1, wrongCount := 0, skippedCount := 0,
          wrongItems := [], isRetryMode := false, hasAnswered := true }).skippedCount = 0 ∧
    (shuffleCurrentItems (fun _ => 0)
        { vocabulary := [{ id := 1, english := some "a" }, { id := 2, english := some "b" }],
          items := [{ id := 1, english := some "a" }, { id := 2, english := some "b" }],
          currentIndex := 1, correctCount := 1, wrongCount := 0, skippedCount := 0,
          wrongItems := [], isRetryMode := false, hasAnswered := true }).wrongItems = [] ∧
    (shuffleCurrentItems (fun _ => 0)
        { vocabulary := [{ id := 1, english := some "a" }, { id := 2, english := some "b" }],
          items := [{ id := 1, english := some "a" }, { id := 2, english := some "b" }],
          currentIndex := 1, correctCount := 1, wrongCount := 0, skippedCount := 0,
          wrongItems := [], isRetryMode := false, hasAnswered := true }).isRetryMode = false ∧
    (overshootTrace.correctCount + overshootTrace.wrongCount +
        overshootTrace.skippedCount = 2 ∧
      overshootTrace.items.length = 1) := by
  have h := shuffleCurrentItems_frame
    { vocabulary := [{ id := 1, english := some "a" }, { id := 2, english := some "b" }],
      items := [{ id := 1, english := some "a" }, { id := 2, english := some "b" }],
      currentIndex := 1, correctCount := 1, wrongCount := 0, skippedCount := 0,
      wrongItems := [], isRetryMode := false, hasAnswered := true }
    (fun _ => 0) (fun i => Nat.zero_le i)
  exact h

/-- C5: the engine's end-of-game percentage and the statistics score are
the same function, `round (100 × correct / total)` with a zero
denominator giving 0; in particular the rounded (not floored) values at
`(0,0)`, `(7,10)` and `(1,3)`. -/
theorem percentage_rounding_spec :
    (∀ c t, enginePercentage c t = calculateScore c t) ∧
    enginePercentage 0 0 = 0 ∧ calculateScore 0 0 = 0 ∧
    enginePercentage 7 10 = 70 ∧ calculateScore 7 10 = 70 ∧
    enginePercentage 1 3 = 33 ∧ calculateScore 1 3 = 33 ∧
    (∀ c t, t ≠ 0 → calculateScore c t = (round ((100 * c : ℚ) / t)).toNat) := by
  refine ⟨?_, by decide, by decide, ?_, ?_, ?_, ?_, ?_⟩
  · intro c t
    cases t with
    | zero => simp [enginePercentage, calculateScore]
    | succ n => simp [enginePercentage, calculateScore]
  · unfold enginePercentage
    rw [if_pos (by norm_num), round_eq]
    norm_num
    rfl
  · unfold calculateScore
    rw [if_neg (by norm_num), round_eq]
    norm_num
    rfl
  · unfold enginePercentage
    rw [if_pos (by norm_num), round_eq]
    norm_num
    rfl
  · unfold calculateScore
    rw [if_neg (by norm_num), round_eq]
    norm_num
    rfl
  · intro c t ht
    unfold calculateScore
    rw [if_neg ht]
    congr 2
    rw [div_mul_eq_mul_div, mul_comm]

/-- Witness for C5 discharging the nonzero-denominator hypothesis at
`correct = 7`, `total = 10`. -/
theorem percentage_rounding_spec_witness :
    calculateScore 7 10 = (round ((100 * 7 : ℚ) / 10)).toNat :=
  percentage_rounding_spec.2.2.2.2.2.2.2 7 10 (by decide)

/-- C6: the fetch tries the tiers in fixed order.  A truthy Firebase
result is terminal with source `firebase` (the spec's "remote") and the
JSON tier is never attempted; a Firebase miss followed by a truthy JSON
result gives source `json` (the spec's "local"); when both miss the call
returns `null` with source `embedded`.  A rejected/timed-out remote read
and a failed local fetch enter as `Except.error` and still produce a
plain `FetchResult` — the errors are swallowed, never propagated. -/
theorem vocab_fetch_tier_order :
    ∀ (initOk : Bool) (cached : Option FbData) (race : Except Unit (Option FbData))
      (resp : Except Unit JsonVal),
      (∀ d, tryFirebase initOk cached race = some d →
        getEnglishVocabulary initOk cached race resp =
          { result := some (.doc (d.map Prod.snd)), source := .firebase,
            isOnline := true, localAttempted := false }) ∧
      (tryFirebase initOk cached race = none →
        ∀ v, resp = .ok v → jsonTruthy v = true →
          getEnglishVocabulary initOk cached race resp =
            { result := some v, source := .json, isOnline := false,
              localAttempted := true }) ∧
      (tryFirebase initOk cached race = none →
        (resp = .error () ∨ resp = .ok .nullJ) →
          getEnglishVocabulary initOk cached race resp =
            { result := none, source := .embedded, isOnline := false,
              localAttempted := true }) := by
  intro initOk cached race resp
  refine ⟨?_, ?_, ?_⟩
  · intro d hd
    simp [getEnglishVocabulary, hd]
  · intro hfb v hv ht
    subst hv
    simp [getEnglishVocabulary, hfb, tryJsonFallback, ht]
  · intro hfb hmiss
    rcases hmiss with h | h <;> subst h <;>
      simp [getEnglishVocabulary, hfb, tryJsonFallback, jsonTruthy]

/-- Witness for C6: remote init failed, local file present. -/
theorem vocab_fetch_tier_order_witness :
    getEnglishVocabulary false none (.error ())
        (.ok (.doc [{ id := 1, english := some "a" }])) =
      { result := some (.doc [{ id := 1, english := some "a" }]), source := .json,
        isOnline := false, localAttempted := true } :=
  (vocab_fetch_tier_order false none (.error ())
      (.ok (.doc [{ id := 1, english := some "a" }]))).2.1
    rfl (.doc [{ id := 1, english := some "a" }]) rfl rfl

/-- C7 counterexample: a present-but-empty dataset is NOT treated as a
miss.  An empty object from the remote store (`.ok (some [])`) is
returned as the terminal answer of tier (a) with an empty `vocabulary`
array, and a local JSON document with an empty `vocabulary` array is
returned as the terminal answer of tier (b). -/
theorem vocab_fetch_empty_counterexample :
    (getEnglishVocabulary true none (.ok (some [])) (.error ())).result
        = some (.doc []) ∧
    (getEnglishVocabulary true none (.ok (some [])) (.error ())).source
        = .firebase ∧
    (getEnglishVocabulary true none (.error ()) (.ok (.doc []))).result
        = some (.doc []) ∧
    (getEnglishVocabulary true none (.error ()) (.ok (.doc []))).source
        = .json := by
  decide

/-- C7 amended: only a null/absent dataset is treated as a miss.  A null
snapshot value from the remote store behaves exactly like a remote
error/timeout; a present (possibly empty) remote object is terminal at
tier (a); a present (possibly empty-vocabulary) local document is
terminal at tier (b); a JSON `null` body falls through to `embedded`. -/
theorem vocab_fetch_empty_amended :
    (∀ (initOk : Bool) (cached : Option FbData),
      tryFirebase initOk cached (.ok none) = tryFirebase initOk cached (.error ())) ∧
    (∀ (fb : FbData) (resp : Except Unit JsonVal),
      getEnglishVocabulary true none (.ok (some fb)) resp =
        { result := some (.doc (fb.map Prod.snd)), source := .firebase,
          isOnline := true, localAttempted := false }) ∧
    (∀ v : List Item,
      getEnglishVocabulary true none (.error ()) (.ok (.doc v)) =
        { result := some (.doc v), source := .json, isOnline := false,
          localAttempted := true }) ∧
    (getEnglishVocabulary true none (.error ()) (.ok .nullJ) =
      { result := none, source := .embedded, isOnline := false,
        localAttempted := true }) := by
  refine ⟨?_, ?_, ?_, rfl⟩
  · intro initOk cached
    cases initOk <;> cases cached <;> rfl
  · intro fb resp
    rfl
  · intro v
    rfl

/-- C8 counterexample: `getPlayerId` does not loop and is not always
non-empty.  With nothing cached or persisted, a cancelled prompt makes it
return `null`, and a prompt returning the empty string makes it return
`""` — both falsy, neither a non-empty identity, and nothing persisted. -/
theorem getPlayerId_nullable_counterexample :
    (getPlayerId none { playerId := none, stored := none }).1 = none ∧
    (getPlayerId (some "") { playerId := none, stored := none }).1 = some "" ∧
    (getPlayerId none { playerId := none, stored := none }).2.stored = none ∧
    (getPlayerId (some "") { playerId := none, stored := none }).2.stored = none := by
  decide

/-- C8 amended: `getPlayerId` prompts at most once per call.  A truthy
cached id short-circuits; a truthy stored name is cached and returned; a
fresh call normalizes (lower-case then trim) a non-empty prompt input,
persists and caches it, and returns it; a cancelled prompt yields `null`,
an empty prompt input yields `""`, and whitespace-only input yields
`null`, none of which is persisted — there is no retry loop. -/
theorem getPlayerId_amended :
    ∀ (st : PlayerState) (promptResult : Option String) (input : String),
      (strTruthy st.playerId = true →
        getPlayerId promptResult st = (st.playerId, st)) ∧
      (strTruthy st.playerId = false → strTruthy st.stored = true →
        getPlayerId promptResult st = (st.stored, { st with playerId := st.stored })) ∧
      (strTruthy st.playerId = false → strTruthy st.stored = false →
        getPlayerId none st = (none, { st with playerId := none })) ∧
      (strTruthy st.playerId = false → strTruthy st.stored = false → input ≠ "" →
        (normalizeName input).length > 0 →
          getPlayerId (some input) st =
            (some (normalizeName input),
              { playerId := some (normalizeName input),
                stored := some (normalizeName input) })) ∧
      (strTruthy st.playerId = false → strTruthy st.stored = false →
        getPlayerId (some "") st = (some "", { st with playerId := some "" })) ∧
      (strTruthy st.playerId = false → strTruthy st.stored = false → input ≠ "" →
        (normalizeName input).length = 0 →
          getPlayerId (some input) st = (none, { st with playerId := none })) := by
  intro st promptResult input
  refine ⟨?_, ?_, ?_, ?_, ?_, ?_⟩
  · intro h
    simp [getPlayerId, h]
  · intro h1 h2
    simp [getPlayerId, h1, h2]
  · intro h1 h2
    simp [getPlayerId, h1, h2]
  · intro h1 h2 h3 h4
    simp [getPlayerId, h1, h2, h3, h4]
  · intro h1 h2
    simp [getPlayerId, h1, h2]
  · intro h1 h2 h3 h4
    simp [getPlayerId, h1, h2, h3, h4]

/-- Witness for C8 amended: prompting `" Alice "` on a fresh state yields
the normalized, persisted, cached `"alice"`. -/
theorem getPlayerId_amended_witness :
    getPlayerId (some " Alice ") { playerId := none, stored := none } =
      (some "alice", { playerId := some "alice", stored := some "alice" }) := by
  have h := (getPlayerId_amended { playerId := none, stored := none }
      (some " Alice ") " Alice ").2.2.2.1 rfl rfl (by decide) (by decide)
  rw [h]
  decide

/-- `recordAnswer` is a complete no-op (state unchanged, no write
attempted) without a current session or a live session id. -/
theorem recordAnswer_guard (s : StatsState) (res : AnswerKind)
    (h : s.currentSession = none ∨ s.sessionId = none) :
    recordAnswer res s = (s, false) := by
  cases hc : s.currentSession with
  | none => cases hi : s.sessionId <;> simp [recordAnswer, hc, hi]
  | some sess =>
    cases hi : s.sessionId with
    | none => simp [recordAnswer, hc, hi]
    | some k =>
      rcases h with h | h
      · rw [hc] at h; exact absurd h (by simp)
      · rw [hi] at h; exact absurd h (by simp)

/-- Folding any answer sequence over a state with no live session id
changes nothing. -/
theorem foldl_recordAnswer_none :
    ∀ (rs : List AnswerKind) (s : StatsState), s.sessionId = none →
      rs.foldl (fun st r => (recordAnswer r st).1) s = s := by
  intro rs
  induction rs with
  | nil => intro s h; rfl
  | cons r rest ih =>
    intro s h
    have := recordAnswer_guard s r (Or.inr h)
    simp only [List.foldl, this]
    exact ih s h

/-- C10: `recordAnswer` is a complete no-op whenever there is no current
session or no live session id; and when the initial in-progress persist
fails to assign a session id (`pushKey = none` on a fresh service), the
started session keeps a `none` id and zeroed counters, and any sequence
of `recordAnswer` calls leaves the whole state — counters included — at
its post-`startSession` value. -/
theorem recordAnswer_guard_noop :
    ∀ (s : StatsState) (res : AnswerKind),
      ((s.currentSession = none ∨ s.sessionId = none) →
        recordAnswer res s = (s, false)) ∧
      (∀ (pid gameId : String) (tw : Nat) (rs : List AnswerKind),
        s.sessionId = none → pid ≠ "" →
          (startSession (some pid) gameId tw none s).sessionId = none ∧
          (startSession (some pid) gameId tw none s).currentSession =
            some { playerId := pid, gameId := gameId, totalWords := tw,
                   correctCount := 0, wrongCount := 0, skippedCount := 0 } ∧
          rs.foldl (fun st r => (recordAnswer r st).1)
              (startSession (some pid) gameId tw none s)
            = startSession (some pid) gameId tw none s) := by
  intro s res
  refine ⟨recordAnswer_guard s res, ?_⟩
  intro pid gameId tw rs hsid hpid
  have hstart : startSession (some pid) gameId tw none s =
      { s with
        currentSession := some
          { playerId := pid, gameId := gameId, totalWords := tw,
            correctCount := 0, wrongCount := 0, skippedCount := 0 },
        answersSinceLastSave := 0 } := by
    simp [startSession, createLiveSession, strTruthy, hpid]
  refine ⟨?_, ?_, ?_⟩
  · rw [hstart]
    simpa using hsid
  · rw [hstart]
  · refine foldl_recordAnswer_none rs _ ?_
    rw [hstart]
    simpa using hsid

/-- Witness for C10: a fresh service whose in-progress persist failed;
three answers leave everything unchanged. -/
theorem recordAnswer_guard_noop_witness :
    recordAnswer .correct initialStatsState = (initialStatsState, false) ∧
    [AnswerKind.correct, AnswerKind.wrong, AnswerKind.skipped].foldl
        (fun st r => (recordAnswer r st).1)
        (startSession (some "dana") "english-quiz" 5 none initialStatsState)
      = startSession (some "dana") "english-quiz" 5 none initialStatsState := by
  constructor
  · exact (recordAnswer_guard_noop initialStatsState .correct).1 (Or.inl rfl)
  · exact ((recordAnswer_guard_noop initialStatsState .correct).2 "dana"
      "english-quiz" 5 [AnswerKind.correct, AnswerKind.wrong, AnswerKind.skipped]
      rfl (by decide)).2.2

end Learning
